import Mathlib

/-!
Verification development for the `pbr_rust` excerpt of a physically based
renderer.  The Rust sources are shallowly embedded in Lean: the machine
`Float` type is modelled by exact rationals `ℚ`, machine integers (`Int` in
the renderer, a signed machine integer) by `ℤ` with Rust's
truncating division `Int.tdiv`, fallible or panicking code by
`Option`/`Except`, and the process-wide mutable texture cache by explicit
state passing.  Components of the repository that the excerpt only calls
into (the MIPMap / cache module, the spectrum module, the parameter set)
are modelled from the specification and are marked as such in their doc
comments.
-/

set_option maxHeartbeats 1000000
set_option linter.unusedSectionVars false
set_option linter.unusedVariables false

namespace PbrRust

/-! ## Geometry: `src/core/geometry/point2.rs` -/

/-- A 2-D point containing numeric values (struct `Point2<T>`). -/
structure Point2 (α : Type) where
  x : α
  y : α
  deriving DecidableEq, Repr

/-- Creates a new 2-D point (`point2` constructor function). -/
def point2 {α : Type} (x y : α) : Point2 α :=
  ⟨x, y⟩

/-- A 2-D vector (struct `Vector2<T>`, external to the excerpt but used by
the texture code for the screen-space derivatives of texture coordinates). -/
structure Vector2 (α : Type) where
  x : α
  y : α
  deriving DecidableEq, Repr

/-- Creates a new 2-D vector. -/
def vector2 {α : Type} (x y : α) : Vector2 α :=
  ⟨x, y⟩

/-- Squared length of a 2-D rational vector. -/
def Vector2.lengthSquared (v : Vector2 ℚ) : ℚ :=
  v.x * v.x + v.y * v.y

/-- Scale a 2-D rational vector by a scalar. -/
def Vector2.scale (v : Vector2 ℚ) (s : ℚ) : Vector2 ℚ :=
  vector2 (v.x * s) (v.y * s)

/-- Embedding of `impl Div<T> for Point2<T>` at the machine-integer
instantiation (`Point2<Int>`).  The source computes the reciprocal
`inv = T::one() / f` once and multiplies each component by it; Rust integer
division truncates toward zero, which is `Int.tdiv`.  The only guard in the
source is `debug_assert!(!f.is_zero())`, and integer division by zero
panics in Rust; both are modelled by returning `none` for `f = 0`. -/
def Point2.rustDiv (p : Point2 ℤ) (f : ℤ) : Option (Point2 ℤ) :=
  if f = 0 then none
  else
    let inv : ℤ := Int.tdiv 1 f
    some (point2 (inv * p.x) (inv * p.y))

/-- Embedding of `impl DivAssign<T> for Point2<T>` at the machine-integer
instantiation.  The source body repeats the computation of `Div`:
`inv = T::one() / f` followed by component-wise multiplication. -/
def Point2.rustDivAssign (p : Point2 ℤ) (f : ℤ) : Option (Point2 ℤ) :=
  if f = 0 then none
  else
    let inv : ℤ := Int.tdiv 1 f
    some (point2 (inv * p.x) (inv * p.y))

/-! ## Environment camera: `src/cameras/environment_camera.rs` -/

/-- A 3-D point with rational coordinates (external `Point3f`). -/
structure Point3 where
  x : ℚ
  y : ℚ
  z : ℚ
  deriving DecidableEq, Repr

/-- A 3-D vector with rational coordinates (external `Vector3f`). -/
structure Vector3 where
  x : ℚ
  y : ℚ
  z : ℚ
  deriving DecidableEq, Repr

/-- A ray (external struct `Ray`), reduced to the fields the excerpt
touches: origin, direction and time. -/
structure Ray where
  o : Point3
  d : Vector3
  time : ℚ
  deriving DecidableEq, Repr

/-- The spatial and directional PDFs for sampling a ray leaving a camera
(external struct `PDFResult`). -/
structure PDFResult where
  pdfPos : ℚ
  pdfDir : ℚ
  deriving DecidableEq, Repr

/-- Common camera parameters (external struct `CameraData`), reduced to the
shutter interval. -/
structure CameraData where
  shutterOpen : ℚ
  shutterClose : ℚ
  deriving DecidableEq, Repr

/-- Environment camera (struct `EnvironmentCamera`). -/
structure EnvironmentCamera where
  data : CameraData
  deriving DecidableEq, Repr

/-- Embedding of `EnvironmentCamera::pdf_we`.  The source body is a single
`panic!("NOT IMPLEMENTED")`; a panic is modelled as `Except.error` carrying
the panic message. -/
def EnvironmentCamera.pdf_we (_c : EnvironmentCamera) (_ray : Ray) :
    Except String PDFResult :=
  Except.error "NOT IMPLEMENTED"

/-! ## Parameter set: consumed interface of `src/textures/imagemap.rs` -/

/-- Modelled from the spec: the parameter-set accessor is an out-of-scope
collaborator providing "typed lookups (string/float/bool/filename) with
defaults, used only at construction".  It is modelled as one association
list per value kind. -/
structure TextureParams where
  floats : List (String × ℚ)
  strings : List (String × String)
  bools : List (String × Bool)
  filenames : List (String × String)

/-- First value stored under a name in an association list, if any. -/
def lookupParam {α : Type} (l : List (String × α)) (n : String) : Option α :=
  (l.find? (fun kv => kv.1 == n)).map (fun kv => kv.2)

/-- Modelled from the spec: typed float lookup with a default. -/
def TextureParams.find_float (tp : TextureParams) (n : String) (d : ℚ) : ℚ :=
  (lookupParam tp.floats n).getD d

/-- Modelled from the spec: typed string lookup with a default. -/
def TextureParams.find_string (tp : TextureParams) (n : String) (d : String) : String :=
  (lookupParam tp.strings n).getD d

/-- Modelled from the spec: typed bool lookup with a default. -/
def TextureParams.find_bool (tp : TextureParams) (n : String) (d : Bool) : Bool :=
  (lookupParam tp.bools n).getD d

/-- Modelled from the spec: typed filename lookup with a default. -/
def TextureParams.find_filename (tp : TextureParams) (n : String) (d : String) : String :=
  (lookupParam tp.filenames n).getD d

/-! ## MIPMap data model: consumed interface `src/core/mipmap.rs`
(not part of the excerpt; modelled from the spec) -/

/-- Modelled from the spec: image wrapping convention (`ImageWrap`):
"repeat = modulo; clamp = clamp to edge; black = zero contribution". -/
inductive ImageWrap where
  | Repeat
  | Clamp
  | Black
  deriving DecidableEq, Repr

/-- Modelled from the spec: "a flag selecting trilinear vs.
elliptically-weighted-average (EWA) filtering" (`FilteringMethod`). -/
inductive FilteringMethod where
  | Trilinear
  | Ewa
  deriving DecidableEq, Repr

/-- Modelled from the spec: the cache key (`TexInfo`): "path, filtering
method, wrap mode, scale, gamma flag, max anisotropy". -/
structure TexInfo where
  path : String
  filtering_method : FilteringMethod
  wrap_mode : ImageWrap
  scale : ℚ
  gamma : Bool
  max_anisotropy : ℚ
  deriving DecidableEq, Repr

/-- Constructor `TexInfo::new` used by `ImageTexture::new`. -/
def TexInfo.new (path : String) (filtering_method : FilteringMethod)
    (wrap_mode : ImageWrap) (scale : ℚ) (gamma : Bool)
    (max_anisotropy : ℚ) : TexInfo :=
  ⟨path, filtering_method, wrap_mode, scale, gamma, max_anisotropy⟩

/-! ## Image texture construction parameters
(`impl From<(&TextureParams, &Transform)> for ImageTexture`, resolution of
the parameter set at `src/textures/imagemap.rs` lines 137-151) -/

/-- The construction-time parameters resolved by
`From<(&TextureParams, &Transform)>` before `ImageTexture::new` is called. -/
structure ImageTextureParams where
  max_anisotropy : ℚ
  filtering_method : FilteringMethod
  wrap_mode : ImageWrap
  scale : ℚ
  path : String
  gamma : Bool
  deriving DecidableEq, Repr

/-- Embedding of Rust's `str::ends_with` (used by the `From` impl for the
gamma default): whether the suffix's characters end the string. -/
def strEndsWith (s suffix : String) : Bool :=
  suffix.data.isSuffixOf s.data

/-- The wrap-string match of the `From` impl (`src/textures/imagemap.rs`
lines 144-148): "black" and "clamp" select those modes, every other string
falls to the catch-all arm and selects repeat. -/
def wrapModeOfString (wrap : String) : ImageWrap :=
  match wrap with
  | "black" => ImageWrap.Black
  | "clamp" => ImageWrap.Clamp
  | _ => ImageWrap.Repeat

/-- Embedding of the parameter-resolution prefix of the `From` impl for
`ImageTexture` (`src/textures/imagemap.rs` lines 137-151), transcribed
binding by binding from the source. -/
def resolveImageTextureParams (tp : TextureParams) : ImageTextureParams :=
  let max_anisotropy := tp.find_float "maxanisotropy" 8
  let filtering_method :=
    if tp.find_bool "trilinear" false then FilteringMethod.Trilinear
    else FilteringMethod.Ewa
  let wrap := tp.find_string "wrap" "repeat"
  let wrap_mode := wrapModeOfString wrap
  let scale := tp.find_float "scale" 1
  let path := tp.find_filename "filename" ""
  let gamma := tp.find_bool "gamma" (strEndsWith path ".tga" || strEndsWith path ".png")
  ⟨max_anisotropy, filtering_method, wrap_mode, scale, path, gamma⟩

/-! ## MIPMap pyramid and filtered lookup
(consumed module `src/core/mipmap.rs`, not part of the excerpt; modelled
from spec sections 3, 4.2 and 4.3) -/

variable {T : Type} [AddCommMonoid T] [Module ℚ T]

/-- Modelled from the spec: one pyramid level, a "fixed width×height grid
of texel values of element type T, addressed by integer (x,y) resolved
through the wrap mode at boundaries". -/
structure PyramidLevel (T : Type) where
  width : ℕ
  height : ℕ
  texels : ℕ → ℕ → T

/-- Clamp an integer into the interval `[lo, hi]`. -/
def iclamp (v lo hi : ℤ) : ℤ :=
  max lo (min v hi)

/-- Modelled from the spec: texel addressing resolved through the wrap
mode: "repeat = modulo; clamp = clamp to edge; black = zero
contribution". -/
def PyramidLevel.texel [Zero T] (L : PyramidLevel T) (wrap : ImageWrap)
    (x y : ℤ) : T :=
  match wrap with
  | ImageWrap.Repeat =>
      L.texels (x % (L.width : ℤ)).toNat (y % (L.height : ℤ)).toNat
  | ImageWrap.Clamp =>
      L.texels (iclamp x 0 ((L.width : ℤ) - 1)).toNat
        (iclamp y 0 ((L.height : ℤ) - 1)).toNat
  | ImageWrap.Black =>
      if 0 ≤ x ∧ x < (L.width : ℤ) ∧ 0 ≤ y ∧ y < (L.height : ℤ) then
        L.texels x.toNat y.toNat
      else 0

/-- Modelled from the spec: `MIPMap<T>` holds the ordered sequence of
levels, finest (level 0) to coarsest, together with the construction
options that the lookups consult (wrap mode, filtering method, max
anisotropy). -/
structure MIPMap (T : Type) where
  filtering_method : FilteringMethod
  wrap_mode : ImageWrap
  max_anisotropy : ℚ
  levels : List (PyramidLevel T)

/-- Index of the coarsest level. -/
def MIPMap.maxLevelIndex (m : MIPMap T) : ℕ :=
  m.levels.length - 1

/-- Level access, clamped to the available levels (out-of-range indices
cannot occur for lookups on a well-formed pyramid). -/
def MIPMap.levelAt [Zero T] (m : MIPMap T) (i : ℕ) : PyramidLevel T :=
  m.levels.getD (min i m.maxLevelIndex) ⟨1, 1, fun _ _ => 0⟩

/-- Larger of the base level's two dimensions, as a rational. -/
def MIPMap.maxDim [Zero T] (m : MIPMap T) : ℚ :=
  max ((m.levelAt 0).width : ℚ) ((m.levelAt 0).height : ℚ)

/-- Modelled from the spec: bilinear ("triangle") sampling of one level:
"Bilinear sampling fetches the 4 neighboring texels via the wrap mode and
blends by fractional offsets."  Texture coordinates in `[0,1]` are mapped
to continuous texel coordinates with the usual half-texel offset, so a
coordinate is integer-aligned exactly when `s*width - 1/2` is an
integer. -/
def MIPMap.triangle (m : MIPMap T) (l : ℕ) (st : Point2 ℚ) : T :=
  let L := m.levelAt l
  let s : ℚ := st.x * (L.width : ℚ) - 1/2
  let t : ℚ := st.y * (L.height : ℚ) - 1/2
  let s0 : ℤ := ⌊s⌋
  let t0 : ℤ := ⌊t⌋
  let ds : ℚ := s - (s0 : ℚ)
  let dt : ℚ := t - (t0 : ℚ)
  ((1 - ds) * (1 - dt)) • L.texel m.wrap_mode s0 t0 +
    ((1 - ds) * dt) • L.texel m.wrap_mode s0 (t0 + 1) +
    (ds * (1 - dt)) • L.texel m.wrap_mode (s0 + 1) t0 +
    (ds * dt) • L.texel m.wrap_mode (s0 + 1) (t0 + 1)

/-- Binary-digit recursion for the fractional part of `log2` of a rational
in `[1, 2)`. -/
def log2FracAux : ℕ → ℚ → ℚ
  | 0, _ => 0
  | n + 1, y =>
      let y2 := y * y
      if y2 < 2 then log2FracAux n y2 / 2
      else (1 + log2FracAux n (y2 / 2)) / 2

/-- Modelled from the spec: the trilinear blend fraction `L - ⌊L⌋` with
`L = log2 q`; exact `log2` is irrational, so the fraction is computed to
12 binary digits (the spec's design notes leave such numerical
approximation choices open). -/
def log2Frac (y : ℚ) : ℚ :=
  log2FracAux 12 y

/-- Floor of `log2` of a rational `q ≥ 1`, computed exactly. -/
def qlog2Floor (q : ℚ) : ℕ :=
  Nat.log2 (Int.toNat ⌊q⌋)

/-- Rational square-root approximation (12 binary digits), used only where
the spec's lookup formulas take square roots of footprint lengths. -/
def qsqrt (q : ℚ) : ℚ :=
  if q ≤ 0 then 0
  else (Nat.sqrt (Int.toNat ⌊q * 16777216⌋) : ℚ) / 4096

/-- Modelled from the spec: trilinear lookup.  "Desired level
L = log2(max(|dstdx|,|dstdy|) · max(width,height)), clamped to
[0,maxLevel].  L≤0 → bilinear sample level 0; L≥maxLevel → return the 1×1
texel; otherwise linearly blend bilinear samples of floor(L) and ceil(L)
by fraction L−floor(L)."  The derivative magnitude is the component-wise
maximum; the branch tests are the exact power-of-two characterizations of
`L ≤ 0`, `L ≥ maxLevel` and `⌊L⌋`. -/
def MIPMap.lookupTrilinear (m : MIPMap T) (st : Point2 ℚ)
    (dstdx dstdy : Vector2 ℚ) : T :=
  let width : ℚ := max (max |dstdx.x| |dstdx.y|) (max |dstdy.x| |dstdy.y|)
  let q := width * m.maxDim
  if q ≤ 1 then m.triangle 0 st
  else if (2 : ℚ) ^ m.maxLevelIndex ≤ q then
    (m.levelAt m.maxLevelIndex).texel m.wrap_mode 0 0
  else
    let k := qlog2Floor q
    let f := log2Frac (q / 2 ^ k)
    (1 - f) • m.triangle k st + f • m.triangle (k + 1) st

/-- Modelled from the spec: the elliptically weighted average over one
level.  The footprint ellipse coefficients come from the two scaled
derivative vectors; texels with ellipse radius below the bound contribute
with a radially symmetric weight (the kernel `1 - r²/F`, a
numerical-approximation choice the spec's design notes leave open),
normalized by the accumulated weight. -/
def MIPMap.ewaAtLevel (m : MIPMap T) (l : ℕ) (st : Point2 ℚ)
    (d0 d1 : Vector2 ℚ) : T :=
  let L := m.levelAt l
  let u : ℚ := st.x * (L.width : ℚ) - 1/2
  let v : ℚ := st.y * (L.height : ℚ) - 1/2
  let e0 := vector2 (d0.x * (L.width : ℚ)) (d0.y * (L.height : ℚ))
  let e1 := vector2 (d1.x * (L.width : ℚ)) (d1.y * (L.height : ℚ))
  let A := e0.y ^ 2 + e1.y ^ 2 + 1
  let B := -2 * (e0.x * e0.y + e1.x * e1.y)
  let C := e0.x ^ 2 + e1.x ^ 2 + 1
  let F := A * C - B ^ 2 / 4
  let det := 4 * A * C - B ^ 2
  let du := qsqrt (4 * C * F / det) + 1
  let dv := qsqrt (4 * A * F / det) + 1
  let u0 : ℤ := ⌈u - du⌉
  let u1 : ℤ := ⌊u + du⌋
  let v0 : ℤ := ⌈v - dv⌉
  let v1 : ℤ := ⌊v + dv⌋
  let acc :=
    (List.range ((v1 - v0).toNat + 1)).foldl (fun accv iv =>
      (List.range ((u1 - u0).toNat + 1)).foldl (fun acc iu =>
        let uu : ℚ := ((u0 + (iu : ℤ)) : ℚ) - u
        let vv : ℚ := ((v0 + (iv : ℤ)) : ℚ) - v
        let r2 := A * uu ^ 2 + B * uu * vv + C * vv ^ 2
        if r2 < F then
          (acc.1 + (1 - r2 / F) • L.texel m.wrap_mode (u0 + iu) (v0 + iv),
            acc.2 + (1 - r2 / F))
        else acc) accv) ((0 : T), (0 : ℚ))
  if acc.2 = 0 then m.triangle l st else acc.2⁻¹ • acc.1

/-- Modelled from the spec: EWA lookup.  "Models the ray-differential
footprint as an ellipse in texture space from the two derivative vectors;
clamps eccentricity to maxAnisotropy to bound cost; selects the finest
level whose texel size is ≤ half the ellipse's minor axis; accumulates a
normalized weighted sum of texels inside the ellipse ...; falls back to
trilinear when derivatives are degenerate (zero length)". -/
def MIPMap.lookupEwa (m : MIPMap T) (st : Point2 ℚ)
    (dstdx dstdy : Vector2 ℚ) : T :=
  let p :=
    if dstdx.lengthSquared < dstdy.lengthSquared then (dstdy, dstdx)
    else (dstdx, dstdy)
  let d0 := p.1
  let d1 := p.2
  let major2 := d0.lengthSquared
  let minor2 := d1.lengthSquared
  if minor2 = 0 then m.triangle 0 st
  else
    let d1 :=
      if minor2 * m.max_anisotropy ^ 2 < major2 then
        d1.scale (qsqrt (major2 / (minor2 * m.max_anisotropy ^ 2)))
      else d1
    let minor2 := d1.lengthSquared
    let r := qsqrt minor2 * m.maxDim / 2
    let lvl := if r ≤ 1 then 0 else min (qlog2Floor r) m.maxLevelIndex
    m.ewaAtLevel lvl st d0 d1

/-- Modelled from the spec: `lookup(stCoord, dstdx, dstdy) -> T`, "two
modes", dispatching on the filtering method the MIPMap was built with. -/
def MIPMap.lookup (m : MIPMap T) (st : Point2 ℚ)
    (dstdx dstdy : Vector2 ℚ) : T :=
  match m.filtering_method with
  | FilteringMethod.Trilinear => m.lookupTrilinear st dstdx dstdy
  | FilteringMethod.Ewa => m.lookupEwa st dstdx dstdy

/-! ## MIPMap construction and the texture cache
(consumed module, modelled from spec sections 3, 4.1 and 4.2) -/

/-- Modelled from the spec: a decoded base image, a grid of raw texel
values. -/
structure Image (T : Type) where
  width : ℕ
  height : ℕ
  texels : ℕ → ℕ → T

/-- Modelled from the spec: one box-filter downsampling step, "box-filter
2×2 neighborhoods (wrap-aware at edges)", producing a level of dimensions
`ceil(w/2) × ceil(h/2)`. -/
def boxDown (wrap : ImageWrap) (L : PyramidLevel T) : PyramidLevel T :=
  { width := (L.width + 1) / 2
    height := (L.height + 1) / 2
    texels := fun x y =>
      (1/4 : ℚ) •
        (L.texel wrap (2 * x) (2 * y) + L.texel wrap (2 * x + 1) (2 * y) +
          L.texel wrap (2 * x) (2 * y + 1) +
          L.texel wrap (2 * x + 1) (2 * y + 1)) }

/-- Repeated box filtering: `n + 1` levels starting from the given base
level. -/
def buildLevels (wrap : ImageWrap) : PyramidLevel T → ℕ → List (PyramidLevel T)
  | L, 0 => [L]
  | L, n + 1 => L :: buildLevels wrap (boxDown wrap L) n

/-- Modelled from the spec: MIPMap construction.  Levels are built by
repeated wrap-aware 2×2 box filtering down from the base image, with
"level count = floor(log2(max(width,height)))+1"; the scale option is
applied to the raw texel values.  The windowed-sinc resampling of a
non-power-of-two base and the gamma decode are numerical choices outside
the claims and are not modelled. -/
def buildMIPMap (img : Image T) (info : TexInfo) : MIPMap T :=
  let base : PyramidLevel T :=
    ⟨img.width, img.height, fun x y => info.scale • img.texels x y⟩
  { filtering_method := info.filtering_method
    wrap_mode := info.wrap_mode
    max_anisotropy := info.max_anisotropy
    levels := buildLevels info.wrap_mode base (Nat.log2 (max img.width img.height)) }

/-- The process-wide cache contents: the keyed published MIPMaps,
modelled by explicit state passing. -/
def MIPMapCacheState (T : Type) : Type :=
  List (TexInfo × MIPMap T)

/-- Modelled from the spec: `MIPMapCache::get(key) -> shared MIPMap<T>`;
"fails with LoadError if the image cannot be decoded"; a hit returns the
published entry unchanged, a miss decodes (the ambient image loader is the
`load` argument), builds and publishes; a failed load leaves the cache
unchanged. -/
def MIPMapCache.get (load : String → Option (Image T)) (info : TexInfo)
    (c : MIPMapCacheState T) :
    Except String (MIPMap T) × MIPMapCacheState T :=
  match (List.find? (fun e => e.1 == info) c).map (fun e => e.2) with
  | some m => (Except.ok m, c)
  | none =>
      match load info.path with
      | none => (Except.error ("ImageLoadError: " ++ info.path), c)
      | some img =>
          let m := buildMIPMap img info
          (Except.ok m, (info, m) :: c)

/-! ## Spectrum: consumed module `src/core/spectrum.rs`
(not part of the excerpt; modelled from the spec) -/

/-- Modelled from the spec: the three-channel color texel type
`RGBSpectrum`, a function from channel index to coefficient. -/
abbrev RGBSpectrum : Type :=
  Fin 3 → ℚ

/-- Modelled from the spec: the renderer's compile-time `Spectrum` alias
resolves to `RGBSpectrum`. -/
abbrev Spectrum : Type :=
  RGBSpectrum

/-- Modelled from the spec: `RGBSpectrum::to_rgb`, the RGB components of a
three-channel texel (the identity on the coefficients). -/
def RGBSpectrum.to_rgb (s : RGBSpectrum) : Fin 3 → ℚ :=
  fun i => s i

/-- Modelled from the spec: `Spectrum::from_rgb(rgb, None)`, channel-wise
reconstruction of a spectrum from RGB components (the second argument is
the unused spectrum-type hint). -/
def Spectrum.from_rgb (rgb : Fin 3 → ℚ) (_t : Option Unit) : Spectrum :=
  fun i => rgb i

/-- Modelled from the spec: the "clamp" member of the texel capability
set; `clamp_default` clamps every coefficient to `[0, ∞)`. -/
def Spectrum.clamp_default (s : Spectrum) : Spectrum :=
  fun i => max 0 (s i)

/-- Modelled from the spec: a spectrum is black when every coefficient is
zero. -/
def Spectrum.is_black (s : Spectrum) : Bool :=
  s 0 == 0 && s 1 == 0 && s 2 == 0

/-! ## Reflection model: consumed module `src/core/reflection.rs`
(not part of the excerpt; modelled from the spec as the shading-lobe
composition consumed by `src/materials/plastic.rs`) -/

/-- Modelled from the spec: the scattering lobes the plastic material
assembles: a Lambertian diffuse lobe, or a Trowbridge-Reitz microfacet
specular lobe with a dielectric Fresnel term. -/
inductive BxDF where
  | lambertianReflection (kd : Spectrum)
  | microfacetReflection (ks : Spectrum) (alphax alphay : ℚ)
      (sample_visible_area : Bool) (etaI etaT : ℚ)

/-- Whether a lobe is the Lambertian diffuse lobe. -/
def BxDF.isLambertian : BxDF → Bool
  | BxDF.lambertianReflection _ => true
  | _ => false

/-- Whether a lobe is the microfacet specular lobe. -/
def BxDF.isMicrofacet : BxDF → Bool
  | BxDF.microfacetReflection _ _ _ _ _ _ => true
  | _ => false

/-- Modelled from the spec: a BSDF, the collection of lobes at a surface
point plus the relative index of refraction. -/
structure BSDF where
  eta : ℚ
  bxdfs : List BxDF

/-- Geometric and shading data at a ray-surface intersection (external
struct `SurfaceInteraction`), reduced to the fields the excerpt reads or
writes: the surface parametrization and the BSDF slot the material
fills. -/
structure SurfaceInteraction where
  p : Point3
  uv : Point2 ℚ
  bsdf : Option BSDF

/-- Modelled from the spec: `BSDF::new(&si, eta)` starts from an empty
lobe list; a missing `eta` defaults to 1. -/
def BSDF.new (_si : SurfaceInteraction) (eta : Option ℚ) : BSDF :=
  ⟨eta.getD 1, []⟩

/-- Modelled from the spec: `BSDF::add` appends one lobe. -/
def BSDF.add (b : BSDF) (x : BxDF) : BSDF :=
  { b with bxdfs := b.bxdfs ++ [x] }

/-! ## Image texture: `src/textures/imagemap.rs` -/

/-- Per-query texture-mapping result (external struct
`TextureMap2DResult`): the parametric point and its partial derivatives
with respect to the two raster axes. -/
structure TextureMap2DResult where
  p : Point2 ℚ
  dstdx : Vector2 ℚ
  dstdy : Vector2 ℚ

/-- Struct `ImageTexture<Tmemory>`: an owned 2D mapping (the trait object
`ArcTextureMapping2D`, embedded as a function) and a shared reference to a
cached MIPMap. -/
structure ImageTexture (T : Type) where
  mapping : SurfaceInteraction → TextureMap2DResult
  mipmap : MIPMap T

/-- Embedding of `ImageTexture::new` (`src/textures/imagemap.rs` lines
49-71).  It builds the `TexInfo` key, asks the cache, and panics
("Unable to load MIPMap: ...") when the cache reports a load error; the
panic is modelled as `Except.error`.  The ambient image loader and the
process-wide cache are explicit arguments. -/
def ImageTexture.new (load : String → Option (Image T))
    (mapping : SurfaceInteraction → TextureMap2DResult) (path : String)
    (filtering_method : FilteringMethod) (wrap_mode : ImageWrap)
    (scale : ℚ) (gamma : Bool) (max_anisotropy : ℚ)
    (c : MIPMapCacheState T) :
    Except String (ImageTexture T × MIPMapCacheState T) :=
  match MIPMapCache.get load
      (TexInfo.new path filtering_method wrap_mode scale gamma max_anisotropy)
      c with
  | (Except.ok mipmap, c2) => Except.ok (⟨mapping, mipmap⟩, c2)
  | (Except.error err, _) => Except.error ("Unable to load MIPMap: " ++ err)

/-- Embedding of `impl Texture<Spectrum> for ImageTexture<RGBSpectrum>`:
map the interaction to `(s, t)` and derivatives, look up the MIPMap, and
convert the texel to a `Spectrum` through its RGB components. -/
def ImageTexture.evaluateSpectrum (t : ImageTexture RGBSpectrum)
    (si : SurfaceInteraction) : Spectrum :=
  let r := t.mapping si
  let mem := t.mipmap.lookup r.p r.dstdx r.dstdy
  Spectrum.from_rgb (RGBSpectrum.to_rgb mem) none

/-- Embedding of `impl Texture<Float> for ImageTexture<Float>`: map the
interaction and return the MIPMap lookup value directly. -/
def ImageTexture.evaluateFloat (t : ImageTexture ℚ)
    (si : SurfaceInteraction) : ℚ :=
  let r := t.mapping si
  t.mipmap.lookup r.p r.dstdx r.dstdy

/-- The spectrum-evaluate method call with the receiver's state made
explicit: `evaluate` takes `&self`, and no statement of the body writes to
the receiver, so the call returns the result together with the unchanged
texture. -/
def ImageTexture.evaluateSpectrumCall (t : ImageTexture RGBSpectrum)
    (si : SurfaceInteraction) : Spectrum × ImageTexture RGBSpectrum :=
  (t.evaluateSpectrum si, t)

/-- The float-evaluate method call with the receiver's state made
explicit (see `ImageTexture.evaluateSpectrumCall`). -/
def ImageTexture.evaluateFloatCall (t : ImageTexture ℚ)
    (si : SurfaceInteraction) : ℚ × ImageTexture ℚ :=
  (t.evaluateFloat si, t)

/-! ## Plastic material: `src/materials/plastic.rs` -/

/-- Modelled from the spec: the roughness-to-alpha remapping of the
microfacet module; the module is not part of the excerpt and the spec does
not constrain the remapping, so it is modelled as a total remapping on
which no stated claim depends. -/
def roughness_to_alpha (r : ℚ) : ℚ :=
  r

/-- Struct `PlasticMaterial`: the two spectral reflection textures, the
roughness texture, an optional bump map and the roughness-remap flag.
Texture trait objects are embedded as evaluation functions. -/
structure PlasticMaterial where
  kd : SurfaceInteraction → Spectrum
  ks : SurfaceInteraction → Spectrum
  roughness : SurfaceInteraction → ℚ
  bump_map : Option (SurfaceInteraction → ℚ)
  remap_roughness : Bool

/-- The surface interaction after the optional bump-mapping step of
`compute_scattering_functions`.  `Material::bump` lives outside the
excerpt; it is modelled as an arbitrary interaction transformation `bump`
applied exactly when a bump map is present. -/
def PlasticMaterial.postBump
    (bump : (SurfaceInteraction → ℚ) → SurfaceInteraction → SurfaceInteraction)
    (m : PlasticMaterial) (si : SurfaceInteraction) : SurfaceInteraction :=
  match m.bump_map with
  | some bm => bump bm si
  | none => si

/-- Embedding of `PlasticMaterial::compute_scattering_functions`
(`src/materials/plastic.rs` lines 73-108): optional bump mapping, a fresh
BSDF, a Lambertian lobe when the clamped `kd` evaluation is not black, a
Trowbridge-Reitz microfacet lobe with a dielectric Fresnel (1.5, 1.0) when
the clamped `ks` evaluation is not black, and finally `si.bsdf = Some`.
The in-place mutation of `si` is embedded as returning the updated
interaction. -/
def PlasticMaterial.compute_scattering_functions
    (bump : (SurfaceInteraction → ℚ) → SurfaceInteraction → SurfaceInteraction)
    (m : PlasticMaterial) (si : SurfaceInteraction) : SurfaceInteraction :=
  let si1 := m.postBump bump si
  let bsdf := BSDF.new si1 none
  let kd := (m.kd si1).clamp_default
  let bsdf :=
    if kd.is_black then bsdf
    else bsdf.add (BxDF.lambertianReflection kd)
  let ks := (m.ks si1).clamp_default
  let bsdf :=
    if ks.is_black then bsdf
    else
      let rough := m.roughness si1
      let rough := if m.remap_roughness then roughness_to_alpha rough else rough
      bsdf.add (BxDF.microfacetReflection ks rough rough true 1.5 1)
  { si1 with bsdf := some bsdf }

/-! ## Helper lemmas -/

/-- Rust's truncating integer division `1 / f` is zero whenever
`|f| ≥ 2`. -/
theorem one_tdiv_eq_zero (f : ℤ) (h : 2 ≤ f.natAbs) : Int.tdiv 1 f = 0 := by
  rcases f with n | n
  · show Int.tdiv 1 (Int.ofNat n) = 0
    simp [Int.natAbs] at h
    show Int.ofNat (1 / n) = 0
    rw [Nat.div_eq_of_lt (by omega)]
    rfl
  · show Int.tdiv 1 (Int.negSucc n) = 0
    simp [Int.natAbs] at h
    show -Int.ofNat (1 / (n + 1)) = 0
    rw [Nat.div_eq_of_lt (by omega)]
    rfl

/-- Wrap-mode resolution of an in-bounds texel index is the identity, for
every wrap mode. -/
theorem texel_inbounds [Zero T] (L : PyramidLevel T) (wrap : ImageWrap)
    (i j : ℤ) (hi0 : 0 ≤ i) (hiw : i < (L.width : ℤ))
    (hj0 : 0 ≤ j) (hjh : j < (L.height : ℤ)) :
    L.texel wrap i j = L.texels i.toNat j.toNat := by
  cases wrap with
  | Repeat =>
      show L.texels (i % (L.width : ℤ)).toNat (j % (L.height : ℤ)).toNat = _
      rw [Int.emod_eq_of_lt hi0 hiw, Int.emod_eq_of_lt hj0 hjh]
  | Clamp =>
      show L.texels (iclamp i 0 ((L.width : ℤ) - 1)).toNat
          (iclamp j 0 ((L.height : ℤ) - 1)).toNat = _
      have h1 : iclamp i 0 ((L.width : ℤ) - 1) = i := by
        unfold iclamp; omega
      have h2 : iclamp j 0 ((L.height : ℤ) - 1) = j := by
        unfold iclamp; omega
      rw [h1, h2]
  | Black =>
      show (if 0 ≤ i ∧ i < (L.width : ℤ) ∧ 0 ≤ j ∧ j < (L.height : ℤ) then
          L.texels i.toNat j.toNat else 0) = _
      rw [if_pos ⟨hi0, hiw, hj0, hjh⟩]

/-- Bilinear sampling of level 0 at an integer-aligned coordinate collapses
to the single wrapped texel fetch. -/
theorem triangle_aligned (m : MIPMap T) (st : Point2 ℚ) (i j : ℤ)
    (hs : st.x * ((m.levelAt 0).width : ℚ) - 1/2 = (i : ℚ))
    (ht : st.y * ((m.levelAt 0).height : ℚ) - 1/2 = (j : ℚ)) :
    m.triangle 0 st = (m.levelAt 0).texel m.wrap_mode i j := by
  unfold MIPMap.triangle
  simp only [hs, ht, Int.floor_intCast, sub_self, sub_zero, mul_zero, zero_mul,
    mul_one, one_mul, one_smul, zero_smul, add_zero, zero_add]

/-! ## Claim theorems -/

/-- C8: for every environment camera and every ray, `pdf_we`
unconditionally panics with "NOT IMPLEMENTED"; no call returns a
`PDFResult`. -/
theorem c8_pdf_we_always_panics (c : EnvironmentCamera) (r : Ray) :
    c.pdf_we r = Except.error "NOT IMPLEMENTED" ∧
      ∀ res : PDFResult, c.pdf_we r ≠ Except.ok res := by
  exact ⟨rfl, fun res h => by simp [EnvironmentCamera.pdf_we] at h⟩

/-- C9: scalar division of an integer-typed `Point2` computes the
reciprocal `1/f` once and multiplies the components by it, so for every
`|f| ≥ 2` both `p / f` and `p /= f` yield the zero point; `f = 0` is the
one rejected input. -/
theorem c9_point2_int_div_zero_point (p : Point2 ℤ) (f : ℤ)
    (h : 2 ≤ f.natAbs) :
    Point2.rustDiv p f = some (point2 0 0) ∧
      Point2.rustDivAssign p f = some (point2 0 0) ∧
      Point2.rustDiv p 0 = none := by
  have hf : f ≠ 0 := by
    intro h0
    rw [h0] at h
    simp at h
  have hinv : Int.tdiv 1 f = 0 := one_tdiv_eq_zero f h
  refine ⟨?_, ?_, ?_⟩
  · simp [Point2.rustDiv, hf, hinv, point2]
  · simp [Point2.rustDivAssign, hf, hinv, point2]
  · simp [Point2.rustDiv]

/-- Concrete instance of C9 at `p = (5, -7)`, `f = 3`. -/
theorem c9_point2_int_div_zero_point_witness :
    2 ≤ (3 : ℤ).natAbs ∧
      (Point2.rustDiv (point2 5 (-7)) 3 = some (point2 0 0) ∧
        Point2.rustDivAssign (point2 5 (-7)) 3 = some (point2 0 0) ∧
        Point2.rustDiv (point2 5 (-7)) 0 = none) :=
  ⟨by decide, c9_point2_int_div_zero_point (point2 5 (-7)) 3 (by decide)⟩

/-- C5: at parameter-set construction, the wrap string "black" selects the
black wrap mode, "clamp" selects clamp, and every other string — including
the default "repeat" substituted for a missing parameter and any malformed
value — selects the documented default repeat; resolution is total, so no
error is ever surfaced. -/
theorem c5_wrap_string_resolution (tp : TextureParams) :
    ((resolveImageTextureParams tp).wrap_mode = ImageWrap.Black ↔
        tp.find_string "wrap" "repeat" = "black") ∧
      ((resolveImageTextureParams tp).wrap_mode = ImageWrap.Clamp ↔
        tp.find_string "wrap" "repeat" = "clamp") ∧
      (tp.find_string "wrap" "repeat" ≠ "black" →
        tp.find_string "wrap" "repeat" ≠ "clamp" →
        (resolveImageTextureParams tp).wrap_mode = ImageWrap.Repeat) ∧
      (lookupParam tp.strings "wrap" = none →
        (resolveImageTextureParams tp).wrap_mode = ImageWrap.Repeat) := by
  have hres : (resolveImageTextureParams tp).wrap_mode =
      wrapModeOfString (tp.find_string "wrap" "repeat") := rfl
  have hw : ∀ s : String, (wrapModeOfString s = ImageWrap.Black ↔ s = "black") ∧
      (wrapModeOfString s = ImageWrap.Clamp ↔ s = "clamp") ∧
      (s ≠ "black" → s ≠ "clamp" → wrapModeOfString s = ImageWrap.Repeat) := by
    intro s
    unfold wrapModeOfString
    split
    · simp
    · simp
    · simp_all
  rcases hw (tp.find_string "wrap" "repeat") with ⟨h1, h2, h3⟩
  refine ⟨hres ▸ h1, hres ▸ h2, fun ha hb => hres ▸ h3 ha hb, fun hn => ?_⟩
  have hd : tp.find_string "wrap" "repeat" = "repeat" := by
    simp [TextureParams.find_string, hn]
  rw [hres, hd]
  rfl

/-- Concrete instance of C5 at the empty parameter set: the "wrap"
parameter is absent, and the resolved mode is repeat. -/
theorem c5_wrap_string_resolution_witness :
    (TextureParams.find_string ⟨[], [], [], []⟩ "wrap" "repeat" ≠ "black") ∧
      (TextureParams.find_string ⟨[], [], [], []⟩ "wrap" "repeat" ≠ "clamp") ∧
      lookupParam (TextureParams.strings ⟨[], [], [], []⟩) "wrap" = none ∧
      (resolveImageTextureParams ⟨[], [], [], []⟩).wrap_mode = ImageWrap.Repeat :=
  ⟨by decide, by decide,
    rfl, (c5_wrap_string_resolution ⟨[], [], [], []⟩).2.2.2 rfl⟩

/-- C6: without an explicit "gamma" parameter, gamma correction defaults
to enabled exactly when the resolved filename ends with ".tga" or ".png",
and to disabled otherwise. -/
theorem c6_gamma_default_from_extension (tp : TextureParams)
    (h : lookupParam tp.bools "gamma" = none) :
    (resolveImageTextureParams tp).gamma =
      (strEndsWith (resolveImageTextureParams tp).path ".tga" ||
        strEndsWith (resolveImageTextureParams tp).path ".png") := by
  have hp : (resolveImageTextureParams tp).path =
      tp.find_filename "filename" "" := rfl
  have hg : (resolveImageTextureParams tp).gamma =
      tp.find_bool "gamma"
        (strEndsWith (tp.find_filename "filename" "") ".tga" ||
          strEndsWith (tp.find_filename "filename" "") ".png") := rfl
  rw [hg, hp, TextureParams.find_bool, h]
  rfl

/-- Concrete instance of C6 at a parameter set naming a ".png" file with
no explicit gamma parameter: gamma resolves to enabled. -/
theorem c6_gamma_default_from_extension_witness :
    lookupParam (TextureParams.bools ⟨[], [], [], [("filename", "t.png")]⟩) "gamma" = none ∧
      (resolveImageTextureParams ⟨[], [], [], [("filename", "t.png")]⟩).gamma =
        (strEndsWith (resolveImageTextureParams ⟨[], [], [], [("filename", "t.png")]⟩).path ".tga" ||
          strEndsWith (resolveImageTextureParams ⟨[], [], [], [("filename", "t.png")]⟩).path ".png") ∧
      (resolveImageTextureParams ⟨[], [], [], [("filename", "t.png")]⟩).gamma = true :=
  ⟨rfl, c6_gamma_default_from_extension ⟨[], [], [], [("filename", "t.png")]⟩ rfl,
    by decide⟩

/-- C7: `evaluate` converts the in-memory texel to the shading type as
described: the `Float` instantiation returns exactly the MIPMap lookup
value at the mapped point and derivatives, and the `RGBSpectrum`
instantiation reconstructs the looked-up texel channel-wise through its
RGB components. -/
theorem c7_evaluate_conversion :
    (∀ (t : ImageTexture ℚ) (si : SurfaceInteraction),
        t.evaluateFloat si =
          t.mipmap.lookup (t.mapping si).p (t.mapping si).dstdx
            (t.mapping si).dstdy) ∧
      (∀ (t : ImageTexture RGBSpectrum) (si : SurfaceInteraction),
        t.evaluateSpectrum si =
          Spectrum.from_rgb
            (RGBSpectrum.to_rgb
              (t.mipmap.lookup (t.mapping si).p (t.mapping si).dstdx
                (t.mapping si).dstdy)) none ∧
        ∀ ch : Fin 3,
          t.evaluateSpectrum si ch =
            t.mipmap.lookup (t.mapping si).p (t.mapping si).dstdx
              (t.mapping si).dstdy ch) :=
  ⟨fun _ _ => rfl, fun _ _ => ⟨rfl, fun _ => rfl⟩⟩

/-- C4: `evaluate` is deterministic and side-effect free for both
instantiations: equal surface interactions give equal values, and the
explicit-state form of the call leaves the texture (its mapping and its
MIPMap) unchanged. -/
theorem c4_evaluate_pure
    (tR : ImageTexture RGBSpectrum) (tF : ImageTexture ℚ)
    (si si' : SurfaceInteraction) (h : si = si') :
    tR.evaluateSpectrum si = tR.evaluateSpectrum si' ∧
      tF.evaluateFloat si = tF.evaluateFloat si' ∧
      (tR.evaluateSpectrumCall si).2 = tR ∧
      (tF.evaluateFloatCall si).2 = tF :=
  ⟨h ▸ rfl, h ▸ rfl, rfl, rfl⟩

/-- A concrete 1×1 constant MIPMap over three-channel texels. -/
def testMipmapRGB : MIPMap RGBSpectrum :=
  { filtering_method := FilteringMethod.Trilinear
    wrap_mode := ImageWrap.Clamp
    max_anisotropy := 8
    levels := [⟨1, 1, fun _ _ _ => 1⟩] }

/-- A concrete 1×1 constant MIPMap over scalar texels. -/
def testMipmapF : MIPMap ℚ :=
  { filtering_method := FilteringMethod.Trilinear
    wrap_mode := ImageWrap.Clamp
    max_anisotropy := 8
    levels := [⟨1, 1, fun _ _ => 1⟩] }

/-- A concrete constant texture mapping. -/
def testMapping : SurfaceInteraction → TextureMap2DResult :=
  fun _ => ⟨point2 0 0, vector2 0 0, vector2 0 0⟩

/-- A concrete surface interaction. -/
def testSi : SurfaceInteraction :=
  ⟨⟨0, 0, 0⟩, point2 0 0, none⟩

/-- Concrete instance of C4 on a constant 1×1 texture: both evaluations
agree with themselves and the call leaves the texture unchanged. -/
theorem c4_evaluate_pure_witness :
    ImageTexture.evaluateSpectrum ⟨testMapping, testMipmapRGB⟩ testSi =
        ImageTexture.evaluateSpectrum ⟨testMapping, testMipmapRGB⟩ testSi ∧
      ImageTexture.evaluateFloat ⟨testMapping, testMipmapF⟩ testSi =
        ImageTexture.evaluateFloat ⟨testMapping, testMipmapF⟩ testSi ∧
      (ImageTexture.evaluateSpectrumCall ⟨testMapping, testMipmapRGB⟩ testSi).2 =
        ⟨testMapping, testMipmapRGB⟩ ∧
      (ImageTexture.evaluateFloatCall ⟨testMapping, testMipmapF⟩ testSi).2 =
        ⟨testMapping, testMipmapF⟩ :=
  c4_evaluate_pure ⟨testMapping, testMipmapRGB⟩ ⟨testMapping, testMipmapF⟩
    testSi testSi rfl

/-- C2: when the backing image cannot be loaded (and no entry for the key
is already published), `ImageTexture::new` fails at construction with the
image-load error wrapped in the construction panic, and the cache is left
unpopulated for that key.  Failure cannot be deferred: no `ImageTexture`
value exists for `evaluate` to be called on. -/
theorem c2_new_load_failure (load : String → Option (Image T))
    (mapping : SurfaceInteraction → TextureMap2DResult) (path : String)
    (fm : FilteringMethod) (wm : ImageWrap) (scale : ℚ) (gamma : Bool)
    (aniso : ℚ) (c : MIPMapCacheState T)
    (hmiss : List.find?
      (fun e => e.1 == TexInfo.new path fm wm scale gamma aniso) c = none)
    (hload : load path = none) :
    ImageTexture.new load mapping path fm wm scale gamma aniso c =
        Except.error ("Unable to load MIPMap: " ++ ("ImageLoadError: " ++ path)) ∧
      (MIPMapCache.get load (TexInfo.new path fm wm scale gamma aniso) c).2 = c := by
  have hget : MIPMapCache.get load (TexInfo.new path fm wm scale gamma aniso) c =
      (Except.error ("ImageLoadError: " ++ path), c) := by
    unfold MIPMapCache.get
    rw [hmiss]
    simp only [Option.map_none']
    rw [show (TexInfo.new path fm wm scale gamma aniso).path = path from rfl, hload]
  constructor
  · unfold ImageTexture.new
    rw [hget]
  · rw [hget]

/-- A loader for which every path fails to decode. -/
def testLoadFail : String → Option (Image ℚ) :=
  fun _ => none

/-- Concrete instance of C2: a missing file on an empty cache fails at
construction and leaves the cache empty. -/
theorem c2_new_load_failure_witness :
    List.find?
        (fun e => e.1 ==
          TexInfo.new "missing.png" FilteringMethod.Trilinear ImageWrap.Repeat
            1 false 8) ([] : MIPMapCacheState ℚ) = none ∧
      testLoadFail "missing.png" = none ∧
      (ImageTexture.new testLoadFail testMapping "missing.png"
          FilteringMethod.Trilinear ImageWrap.Repeat 1 false 8 [] =
        Except.error
          ("Unable to load MIPMap: " ++ ("ImageLoadError: " ++ "missing.png")) ∧
      (MIPMapCache.get testLoadFail
          (TexInfo.new "missing.png" FilteringMethod.Trilinear ImageWrap.Repeat
            1 false 8) []).2 = []) :=
  ⟨rfl, rfl,
    c2_new_load_failure testLoadFail testMapping "missing.png"
      FilteringMethod.Trilinear ImageWrap.Repeat 1 false 8 [] rfl rfl⟩

/-- C10: after `compute_scattering_functions`, `si.bsdf` is always `Some`;
the BSDF holds a Lambertian diffuse lobe exactly when the clamped `kd`
evaluation is non-black and a microfacet specular lobe exactly when the
clamped `ks` evaluation is non-black (possibly zero lobes). -/
theorem c10_plastic_bsdf_lobes
    (bump : (SurfaceInteraction → ℚ) → SurfaceInteraction → SurfaceInteraction)
    (m : PlasticMaterial) (si : SurfaceInteraction) :
    ∃ b : BSDF,
      (m.compute_scattering_functions bump si).bsdf = some b ∧
        b.bxdfs.any BxDF.isLambertian =
          !((m.kd (m.postBump bump si)).clamp_default.is_black) ∧
        b.bxdfs.any BxDF.isMicrofacet =
          !((m.ks (m.postBump bump si)).clamp_default.is_black) := by
  unfold PlasticMaterial.compute_scattering_functions
  by_cases hkd : ((m.kd (m.postBump bump si)).clamp_default).is_black <;>
    by_cases hks : ((m.ks (m.postBump bump si)).clamp_default).is_black <;>
    exact ⟨_, rfl, by
        simp [hkd, hks, BSDF.new, BSDF.add, BxDF.isLambertian, BxDF.isMicrofacet],
      by
        simp [hkd, hks, BSDF.new, BSDF.add, BxDF.isLambertian, BxDF.isMicrofacet]⟩

/-- C3: for every MIPMap — hence under both filtering modes and every wrap
mode — a lookup with `dstdx = dstdy = 0` at an integer-aligned, in-bounds
coordinate returns the exact base-level texel stored at that
coordinate. -/
theorem c3_lookup_zero_derivative_base_texel (m : MIPMap T) (st : Point2 ℚ)
    (i j : ℤ) (hne : m.levels ≠ [])
    (hs : st.x * ((m.levelAt 0).width : ℚ) - 1/2 = (i : ℚ))
    (ht : st.y * ((m.levelAt 0).height : ℚ) - 1/2 = (j : ℚ))
    (hi0 : 0 ≤ i) (hiw : i < ((m.levelAt 0).width : ℤ))
    (hj0 : 0 ≤ j) (hjh : j < ((m.levelAt 0).height : ℤ)) :
    m.lookup st (vector2 0 0) (vector2 0 0) =
      (m.levelAt 0).texels i.toNat j.toNat := by
  have htri : m.triangle 0 st = (m.levelAt 0).texels i.toNat j.toNat := by
    rw [triangle_aligned m st i j hs ht]
    exact texel_inbounds _ _ i j hi0 hiw hj0 hjh
  unfold MIPMap.lookup
  cases hfm : m.filtering_method with
  | Trilinear =>
      unfold MIPMap.lookupTrilinear
      simp [vector2, htri]
  | Ewa =>
      unfold MIPMap.lookupEwa
      simp [vector2, Vector2.lengthSquared, htri]

/-- A concrete 2×2 MIPMap over scalar texels with a distinct value per
texel. -/
def testMipmap2 : MIPMap ℚ :=
  { filtering_method := FilteringMethod.Trilinear
    wrap_mode := ImageWrap.Clamp
    max_anisotropy := 8
    levels := [⟨2, 2, fun x y => (x : ℚ) + 2 * y⟩, ⟨1, 1, fun _ _ => 9⟩] }

/-- Concrete instance of C3: on the 2×2 test pyramid, the zero-derivative
lookup at the coordinate aligned with texel (1,1) returns that texel's
stored value 3. -/
theorem c3_lookup_zero_derivative_base_texel_witness :
    testMipmap2.levels ≠ [] ∧
      (point2 (3/4 : ℚ) (3/4)).x * ((testMipmap2.levelAt 0).width : ℚ) - 1/2 =
        ((1 : ℤ) : ℚ) ∧
      (point2 (3/4 : ℚ) (3/4)).y * ((testMipmap2.levelAt 0).height : ℚ) - 1/2 =
        ((1 : ℤ) : ℚ) ∧
      (0 : ℤ) ≤ 1 ∧ (1 : ℤ) < ((testMipmap2.levelAt 0).width : ℤ) ∧
      (0 : ℤ) ≤ 1 ∧ (1 : ℤ) < ((testMipmap2.levelAt 0).height : ℤ) ∧
      testMipmap2.lookup (point2 (3/4) (3/4)) (vector2 0 0) (vector2 0 0) =
        (testMipmap2.levelAt 0).texels (1 : ℤ).toNat (1 : ℤ).toNat ∧
      (testMipmap2.levelAt 0).texels (1 : ℤ).toNat (1 : ℤ).toNat = 3 :=
  ⟨by simp [testMipmap2],
    by norm_num [testMipmap2, MIPMap.levelAt, MIPMap.maxLevelIndex, point2],
    by norm_num [testMipmap2, MIPMap.levelAt, MIPMap.maxLevelIndex, point2],
    by decide,
    by norm_num [testMipmap2, MIPMap.levelAt, MIPMap.maxLevelIndex],
    by decide,
    by norm_num [testMipmap2, MIPMap.levelAt, MIPMap.maxLevelIndex],
    c3_lookup_zero_derivative_base_texel testMipmap2 (point2 (3/4) (3/4)) 1 1
      (by simp [testMipmap2])
      (by norm_num [testMipmap2, MIPMap.levelAt, MIPMap.maxLevelIndex, point2])
      (by norm_num [testMipmap2, MIPMap.levelAt, MIPMap.maxLevelIndex, point2])
      (by decide)
      (by norm_num [testMipmap2, MIPMap.levelAt, MIPMap.maxLevelIndex])
      (by decide)
      (by norm_num [testMipmap2, MIPMap.levelAt, MIPMap.maxLevelIndex]),
    by norm_num [testMipmap2, MIPMap.levelAt, MIPMap.maxLevelIndex]⟩

end PbrRust
